import Mathlib

/-!
# Verification of the myassist frame-batching / change-gating pipeline

Shallow embedding of the core logic of the repository:

* `services/ai_engine_service.py` — per-key frame buffering, batch dispatch,
  the change gate (`_should_send_update`), batch completion re-check, and the
  lifecycle handlers (`game:started`, `game:ended`, `disconnect`).
* `services/vision_service.py` — `analyze_frame_batch_detailed` aggregation.
* `services/voice_command_service.py` + `utils/command_registry.py` +
  `utils/command_handlers.py` — fuzzy command resolution table and dispatch.
* `api/voice_routes.py` — the `POST /command` endpoint's control flow.

External collaborators (the Gemini vision model, the TTS renderer, the
fuzzywuzzy `extractOne` scorer, network and file I/O) are modelled as
parameters holding their observed outcomes; everything downstream of those
outcomes is translated directly from the Python source.

The change gate calls `difflib.SequenceMatcher(None, a, b).ratio()` from the
Python standard library; that algorithm is embedded below (`seqRatio`)
following CPython's `difflib.py`: the `b2j` occurrence index with the
autojunk popularity filter, the `find_longest_match` dynamic program with its
extension loops, the `get_matching_blocks` recursion, and
`_calculate_ratio`.  Since the caller passes `isjunk = None`, the junk set is
empty, so the two junk-extension loops of `find_longest_match` are identity
and are not reproduced.  Rational arithmetic stands in for Python floats: all
compared quantities are ratios of small integers, far from the rounding
boundary of the 0.7 literal.
-/

namespace Myassist

/-! ## difflib.SequenceMatcher (Python standard library, called with isjunk = None) -/

/-- Ascending list of indices `j` with `b[j] = c` (difflib's `b2j` entry for `c`,
before the autojunk filter). -/
def charIndices (b : List Char) (c : Char) : List Nat :=
  (List.range b.length).filter (fun j => b.get? j == some c)

/-- difflib autojunk: for `len(b) >= 200`, characters occurring more than
`len(b) // 100 + 1` times are dropped from `b2j`. -/
def isPopular (b : List Char) (c : Char) : Bool :=
  (200 ≤ b.length) && (b.length / 100 + 1 < b.count c)

/-- difflib's `b2j.get(c, nothing)`: occurrence indices of `c` in `b`, with
popular entries removed by autojunk. -/
def b2j (b : List Char) (c : Char) : List Nat :=
  if isPopular b c then [] else charIndices b c

/-- The junk test `isbjunk`: the change gate constructs
`SequenceMatcher(None, ...)`, so the junk set `bjunk` is empty. -/
def isbjunk (_ : Char) : Bool := false

/-- Inner loop of `find_longest_match` for one row `i`: walk the occurrence
list of `a[i]` in `b` (ascending), skipping `j < blo` (`continue`) and
stopping at `j >= bhi` (`break`); `newj2len[j] = j2len.get(j-1, 0) + 1`, and
the best triple is replaced when a strictly longer run appears.
`j2len` maps are embedded as total functions defaulting to `0`. -/
def flmRow (blo bhi i : Nat) :
    List Nat → (Nat → Nat) → (Nat → Nat) → Nat × Nat × Nat →
    ((Nat → Nat) × (Nat × Nat × Nat))
  | [], _, newmap, best => (newmap, best)
  | j :: js, oldmap, newmap, best =>
    if j < blo then flmRow blo bhi i js oldmap newmap best
    else if bhi ≤ j then (newmap, best)
    else
      let k := (if j = 0 then 0 else oldmap (j - 1)) + 1
      let newmap' := fun j' => if j' = j then k else newmap j'
      let best' := if best.2.2 < k then (i + 1 - k, j + 1 - k, k) else best
      flmRow blo bhi i js oldmap newmap' best'

/-- Outer loop of `find_longest_match`: rows `i = alo, ..., ahi - 1`; each row
starts from a fresh `newj2len = {}`. -/
def flmRows (a b : List Char) (blo bhi : Nat) :
    List Nat → (Nat → Nat) → Nat × Nat × Nat → Nat × Nat × Nat
  | [], _, best => best
  | i :: is, j2len, best =>
    let row := flmRow blo bhi i (b2j b (a.getD i ' ')) j2len (fun _ => 0) best
    flmRows a b blo bhi is row.1 row.2

/-- First extension loop of `find_longest_match`: extend the best block
backwards over equal non-junk characters.  The loop decreases `besti`, which
bounds its iteration count, so `besti` itself serves as fuel.  Indices
`besti - 1`, `bestj - 1` are in range whenever the guard holds. -/
def extBack (a b : List Char) (alo blo : Nat) :
    Nat → Nat × Nat × Nat → Nat × Nat × Nat
  | 0, best => best
  | fuel + 1, (besti, bestj, bestsize) =>
    if alo < besti ∧ blo < bestj ∧ isbjunk (b.getD (bestj - 1) ' ') = false ∧
        a.getD (besti - 1) ' ' = b.getD (bestj - 1) ' ' then
      extBack a b alo blo fuel (besti - 1, bestj - 1, bestsize + 1)
    else (besti, bestj, bestsize)

/-- Second extension loop of `find_longest_match`: extend the best block
forwards over equal non-junk characters; `ahi - (besti + bestsize)` bounds
the iteration count, so `ahi` is sufficient fuel. -/
def extFwd (a b : List Char) (ahi bhi : Nat) :
    Nat → Nat × Nat × Nat → Nat × Nat × Nat
  | 0, best => best
  | fuel + 1, (besti, bestj, bestsize) =>
    if besti + bestsize < ahi ∧ bestj + bestsize < bhi ∧
        isbjunk (b.getD (bestj + bestsize) ' ') = false ∧
        a.getD (besti + bestsize) ' ' = b.getD (bestj + bestsize) ' ' then
      extFwd a b ahi bhi fuel (besti, bestj, bestsize + 1)
    else (besti, bestj, bestsize)

/-- `SequenceMatcher.find_longest_match(alo, ahi, blo, bhi)` with an empty
junk set: dynamic program followed by the two non-junk extension loops (the
junk extension loops are identity since `bjunk = ∅`). -/
def findLongestMatch (a b : List Char) (alo ahi blo bhi : Nat) : Nat × Nat × Nat :=
  let best := flmRows a b blo bhi (List.range' alo (ahi - alo)) (fun _ => 0) (alo, blo, 0)
  let best := extBack a b alo blo best.1 best
  extFwd a b ahi bhi (a.length + 1) best

/-- Total size of the matching blocks of `get_matching_blocks` restricted to
the window `[alo, ahi) × [blo, bhi)`: the block found by
`find_longest_match`, plus the blocks of the two sub-windows around it (the
LIFO queue order of the Python loop does not affect the sum).  Each recursive
window is strictly narrower, so `ahi + bhi + 1` is sufficient fuel. -/
def matchTotal (a b : List Char) : Nat → Nat → Nat → Nat → Nat → Nat
  | 0, _, _, _, _ => 0
  | fuel + 1, alo, ahi, blo, bhi =>
    let m := findLongestMatch a b alo ahi blo bhi
    let i := m.1
    let j := m.2.1
    let k := m.2.2
    if k = 0 then 0
    else
      k + (if alo < i ∧ blo < j then matchTotal a b fuel alo i blo j else 0)
        + (if i + k < ahi ∧ j + k < bhi then matchTotal a b fuel (i + k) ahi (j + k) bhi else 0)

/-- `SequenceMatcher(None, a, b).ratio()`: `2 * M / (len(a) + len(b))` where
`M` is the total matched size; `1` when both strings are empty
(`_calculate_ratio`).  The quotient is built with `mkRat` (the rational
`2 * M / (la + lb)`, see `seqRatio_div_form`), which the kernel can
evaluate. -/
def seqRatio (a b : String) : ℚ :=
  let la := a.data.length
  let lb := b.data.length
  if la + lb = 0 then 1
  else mkRat (2 * matchTotal a.data b.data (la + lb + 1) 0 la 0 lb) (la + lb)

/-- Python's `str.lower()` (builtin), characterwise; the messages compared by
the change gate are ASCII, where `Char.toLower` agrees with Python. -/
def pyLower (s : String) : String := ⟨s.data.map Char.toLower⟩

/-- Python's `str.strip()` (builtin): drop leading and trailing
whitespace. -/
def pyStrip (s : String) : String :=
  ⟨((s.data.dropWhile Char.isWhitespace).reverse.dropWhile Char.isWhitespace).reverse⟩

/-! ## Change Gate (`AIEngineService._should_send_update`)

`previous_states[player_key]` is the dict
`{"status", "observation", "analysis_result", "first_message_sent"}`, whose
first three values are `None` initially and strings after updates. -/

/-- One entry of `self.previous_states` (`ai_engine_service.py`, `__init__`
and the lifecycle handlers). -/
structure PrevState where
  status : Option String
  observation : Option String
  analysis_result : Option String
  first_message_sent : Bool
deriving Repr, DecidableEq

/-- The defaultdict initial value of `previous_states`, also written back by
`game:started` and `game:ended`. -/
def initPrevState : PrevState :=
  { status := none, observation := none, analysis_result := none,
    first_message_sent := false }

/-- Python truthiness of `previous_state["analysis_result"]` (a value that is
`None` or a string): false exactly for `None` and `""`. -/
def truthy : Option String → Bool
  | none => false
  | some s => !(s == "")

/-- The three-field update performed by every sending branch of
`_should_send_update` after the baseline:
`status`, `observation` and `analysis_result` all adopt the current result. -/
def adoptState (prev : PrevState) (st msg : String) : PrevState :=
  { prev with status := some st, observation := some msg, analysis_result := some msg }

/-- `AIEngineService._should_send_update`, returning the decision together
with the updated `previous_states[player_key]` entry (the Python method
mutates the shared dict; the state is threaded explicitly here).
`st`/`msg` are `current_analysis["status"]`/`current_analysis["message"]`;
`0.7` becomes the rational `7/10`. -/
def shouldSendUpdate (prev : PrevState) (st msg : String) : Bool × PrevState :=
  if prev.first_message_sent = false then
    (true, { status := some st, observation := some msg,
             analysis_result := some msg, first_message_sent := true })
  else if st = "danger" then
    (true, adoptState prev st msg)
  else if st = "needs_adjustment" ∧ prev.status ≠ some "needs_adjustment" then
    (true, adoptState prev st msg)
  else if st = "ok" ∧ prev.status = some "needs_adjustment" then
    (true, adoptState prev st msg)
  else if truthy prev.analysis_result = true then
    if seqRatio (pyLower (prev.analysis_result.getD "")) (pyLower msg) < 7 / 10 then
      (true, adoptState prev st msg)
    else
      (false, prev)
  else
    (false, prev)

/-! ## Frame Store and Batch Scheduler (`AIEngineService`)

All mutations of a key's triple (buffer, processing flag, previous state)
happen inside `with self.buffer_locks[player_key]` blocks, so the per-key
interleaving granularity is one whole critical section; the model's events
below are exactly those critical sections.  The ghost field `inFlight` counts
batches that have been handed to a `_process_batch_sync` thread and whose
completion section has not yet run; it is not program state. -/

/-- One buffered frame record (`on_frame_new` appends
`{"data": ..., "path": ..., "ts": ...}`); only frames whose path existed and
whose read succeeded are appended, so the model's inputs are the
successfully-read records. -/
structure FrameRec where
  data : List Nat
  path : String
  ts : Nat
deriving Repr, DecidableEq

/-- Per-key state: `frame_buffers[key]` (head of the list = head of the
deque), `processing_flags[key]`, `previous_states[key]`, and the ghost
in-flight batch counter. -/
structure KeyState where
  buffer : List FrameRec
  processing : Bool
  prev : PrevState
  inFlight : Nat
deriving Repr, DecidableEq

/-- defaultdict initial per-key state: empty deque, flag `False`, initial
previous state, nothing in flight. -/
def initKeyState : KeyState :=
  { buffer := [], processing := false, prev := initPrevState, inFlight := 0 }

/-- The extraction loop
`for _ in range(batch_size): if buffer: batch.append(buffer.popleft())`:
pops up to `n` records off the head. -/
def extractBatch : Nat → List FrameRec → List FrameRec × List FrameRec
  | 0, buf => ([], buf)
  | _ + 1, [] => ([], [])
  | n + 1, f :: buf =>
    let rest := extractBatch n buf
    (f :: rest.1, rest.2)

/-- Result of one critical section: the new key state plus the batch handed
to a background thread, if any. -/
structure StepOut where
  state : KeyState
  dispatched : Option (List FrameRec)
deriving Repr, DecidableEq

/-- The `frame:new` handler's critical section (`on_frame_new`): append the
incoming (successfully read) frames at the tail, then, if the buffer reached
`batch_size` and the key is not already processing, set the flag and extract
one batch for a background thread. -/
def onFrameNew (bs : Nat) (frames : List FrameRec) (s : KeyState) : StepOut :=
  let buf := s.buffer ++ frames
  if bs ≤ buf.length ∧ s.processing = false then
    let ex := extractBatch bs buf
    { state := { buffer := ex.2, processing := true, prev := s.prev,
                 inFlight := s.inFlight + 1 },
      dispatched := some ex.1 }
  else
    { state := { s with buffer := buf }, dispatched := none }

/-- How one `_process_batch_sync` run ends, as observed at its final critical
section:
* `noValidFrames` — the batch carried no frame data; early return that only
  resets the flag;
* `errorNoGate` — an exception before `_should_send_update` ran (e.g. the
  vision call threw); the `except` block only resets the flag;
* `afterGate st msg errorAfter` — `_should_send_update` ran on the analysis
  result `(st, msg)`; then either a later exception hit the `except` block
  (`errorAfter = true`), or the run reached the completion re-check of the
  suppressed path or of the sent path (both re-check identically). -/
inductive CompletionKind where
  | noValidFrames
  | errorNoGate
  | afterGate (st msg : String) (errorAfter : Bool)
deriving Repr, DecidableEq

/-- The completion re-check shared by the suppressed and sent paths: set the
flag to `False`, and if the buffer meanwhile reached `batch_size`, set it
back to `True` and extract the next batch for a fresh thread. -/
def recheckDispatch (bs : Nat) (s : KeyState) : StepOut :=
  if bs ≤ s.buffer.length then
    let ex := extractBatch bs s.buffer
    { state := { buffer := ex.2, processing := true, prev := s.prev,
                 inFlight := s.inFlight + 1 },
      dispatched := some ex.1 }
  else
    { state := { s with processing := false }, dispatched := none }

/-- The end of one `_process_batch_sync` run (the completing batch leaves the
in-flight count).  Error paths and the no-valid-frames early return only
reset the flag; the suppressed and sent paths run the completion
re-check. -/
def completeBatch (bs : Nat) (kind : CompletionKind) (s : KeyState) : StepOut :=
  let s0 : KeyState := { s with inFlight := s.inFlight - 1 }
  match kind with
  | CompletionKind.noValidFrames =>
    { state := { s0 with processing := false }, dispatched := none }
  | CompletionKind.errorNoGate =>
    { state := { s0 with processing := false }, dispatched := none }
  | CompletionKind.afterGate st msg errorAfter =>
    let s1 : KeyState := { s0 with prev := (shouldSendUpdate s0.prev st msg).2 }
    if errorAfter then
      { state := { s1 with processing := false }, dispatched := none }
    else
      recheckDispatch bs s1

/-- The per-key events of the engine: a `frame:new` delivery, the completion
section of a dispatched batch, and the lifecycle handlers `game:started`,
`game:ended` and transport `disconnect`. -/
inductive Event where
  | frameNew (frames : List FrameRec)
  | batchComplete (kind : CompletionKind)
  | gameStarted
  | gameEnded
  | disconnect
deriving Repr, DecidableEq

/-- `game:started` and `game:ended` both clear the buffer, reset the flag and
reset the previous state; neither touches a batch already running. -/
def lifecycleReset (s : KeyState) : KeyState :=
  { buffer := [], processing := false, prev := initPrevState,
    inFlight := s.inFlight }

/-- One per-key transition.  A `batchComplete` event only fires for a batch
actually in flight (guarded no-op otherwise: completions are executed by the
threads the dispatches started). The `disconnect` handler clears
`frame_buffers[key]` and resets `processing_flags[key]` for every known key —
and touches nothing else: in particular `previous_states` is left as it
was. -/
def step (bs : Nat) (e : Event) (s : KeyState) : KeyState :=
  match e with
  | Event.frameNew frames => (onFrameNew bs frames s).state
  | Event.batchComplete kind =>
    if s.inFlight = 0 then s else (completeBatch bs kind s).state
  | Event.gameStarted => lifecycleReset s
  | Event.gameEnded => lifecycleReset s
  | Event.disconnect =>
    { buffer := [], processing := false, prev := s.prev, inFlight := s.inFlight }

/-- Run a sequence of per-key events. -/
def run (bs : Nat) (events : List Event) (s : KeyState) : KeyState :=
  events.foldl (fun s e => step bs e s) s

/-- `settings.BATCH_SIZE` default (`core/config.py`). -/
def BATCH_SIZE : Nat := 4

/-! ## Analysis Adapter (`VisionService.analyze_frame_batch_detailed`)

The external calls are parameters: `loaded` holds, per batch source, the
bytes `load_image` produced (or `none` when it failed); `outcomes` holds, per
valid image, what `future.result()` delivered for `analyze_single_frame`;
`summary` holds the summary model call's stripped text, or `none` when that
call threw. -/

/-- What one `analyze_single_frame` future delivered: `failed` when
`future.result` raised (timeout, or a malformed sub-result making the `.get`
calls raise — the `except: continue` drops it), otherwise the parsed dict's
`"status"` and `"observation"` entries (`None` when a key is absent). -/
inductive SubOutcome where
  | failed
  | result (status : Option String) (observation : Option String)
deriving Repr, DecidableEq

/-- The dict returned by `analyze_frame_batch_detailed`; the three count keys
are present only in the full-aggregation returns, hence `Option`. -/
structure BatchAnalysis where
  status : String
  message : String
  has_changes : Bool
  danger_count : Option Nat
  adjustment_count : Option Nat
  ok_count : Option Nat
deriving Repr, DecidableEq

/-- The futures loop: keep the `(status, observation)` pairs of sub-results
whose `result.get("status") != "error"` (note a missing status key — `None` —
is kept), dropping raised futures. -/
def keptResults (outcomes : List SubOutcome) : List (Option String × Option String) :=
  outcomes.filterMap fun o =>
    match o with
    | SubOutcome.failed => none
    | SubOutcome.result st ob => if st = some "error" then none else some (st, ob)

/-- The fixed message of the zero-successful-sub-analyses return. -/
def defaultMonitoringMessage : String := "I'm monitoring the workspace. Keep working safely!"

/-- The fallback messages used when the summary model call throws, keyed by
the counts. -/
def fallbackMessage (dc ac : Nat) : String :=
  if 0 < dc then "⚠️ Safety alert! Please review your current actions."
  else if 0 < ac then "Good progress! Consider making some adjustments."
  else "Excellent work! Keep maintaining those safety standards."

/-- `VisionService.analyze_frame_batch_detailed`: the no-valid-images return,
the zero-successful-sub-analyses return, and otherwise the count-based
overall status with the summary text (or its fallback). -/
def analyzeFrameBatchDetailed (loaded : List (Option (List Nat)))
    (outcomes : List SubOutcome) (summary : Option String) : BatchAnalysis :=
  let validImages := loaded.filterMap id
  if validImages = [] then
    { status := "error", message := "No valid images found to analyze.",
      has_changes := false, danger_count := none, adjustment_count := none,
      ok_count := none }
  else
    let kept := keptResults outcomes
    let statuses := kept.map Prod.fst
    if kept = [] then
      { status := "ok", message := defaultMonitoringMessage,
        has_changes := false, danger_count := none, adjustment_count := none,
        ok_count := none }
    else
      let dc := statuses.count (some "danger")
      let ac := statuses.count (some "needs_adjustment")
      let oc := statuses.count (some "ok")
      let overall := if 0 < dc then "danger"
        else if 0 < ac then "needs_adjustment" else "ok"
      { status := overall,
        message := match summary with
          | some t => t
          | none => fallbackMessage dc ac,
        has_changes := true, danger_count := some dc,
        adjustment_count := some ac, ok_count := some oc }

/-! ## Command Resolver (`VoiceCommandService`, `CommandRegistry`,
`CommandHandlers`)

The registry is the dict built by `_register_commands`; each entry carries
the phrase, the canonical name, and the fixed string the handler returns
(its side effect — a background HTTP request — is outside the model).  The
fuzzy scorer `process.extractOne` is an external library; its outcome
`(matched, score)` is a parameter of `process_command`. -/

/-- The four phrase groups of `_register_commands`, in registration order. -/
def forwardPhrases : List String :=
  ["move forward", "go forward", "walk forward", "step forward", "forward",
   "ahead", "advance", "proceed", "next"]

def backwardPhrases : List String :=
  ["move backward", "go backward", "walk back", "step back", "backward",
   "back", "reverse", "retreat"]

def startPhrases : List String :=
  ["start", "begin", "launch", "initiate", "open", "run", "activate", "boot"]

def exitPhrases : List String :=
  ["exit", "quit", "close", "stop", "terminate", "shutdown", "end", "cancel"]

/-- `CommandRegistry._commands` after `_register_commands`:
phrase ↦ (canonical name, the handler's fixed acknowledgment string). -/
def commandTable : List (String × String × String) :=
  forwardPhrases.map (fun p => (p, "move_forward", "Okay, moving forward."))
    ++ backwardPhrases.map (fun p => (p, "move_backward", "Got it, moving backward."))
    ++ startPhrases.map (fun p => (p, "start_game", "Starting the AR VR session now."))
    ++ exitPhrases.map (fun p => (p, "exit_game", "Exiting the AR VR session."))

/-- `CommandRegistry.get_command`: dict lookup with the default
`(phrase, lambda: "Unknown command")`. -/
def getCommand (phrase : String) : String × String :=
  match commandTable.find? (fun e => e.1 == phrase) with
  | some e => e.2
  | none => (phrase, "Unknown command")

/-- `settings.FUZZY_THRESHOLD` default (`core/config.py`). -/
def FUZZY_THRESHOLD : Nat := 75

/-- The dict returned by `VoiceCommandService.process_command`: the success
shape carries `canonical`, the no-match shape carries `best_guess`. -/
structure VoiceCmdResult where
  status : String
  suggestion : String
  canonical : Option String
  best_guess : Option String
  score : Nat
deriving Repr, DecidableEq

/-- `VoiceCommandService.process_command` downstream of
`process.extractOne(user_text, command_phrases) = (matched, score)`:
at or above threshold, execute the handler and answer `success` with its
acknowledgment and the canonical name; below it, answer `no_match` with the
fixed message and the best-guess canonical name of the top-scoring phrase. -/
def processCommand (threshold : Nat) (matched : String) (score : Nat) : VoiceCmdResult :=
  if threshold ≤ score then
    { status := "success", suggestion := (getCommand matched).2,
      canonical := some (getCommand matched).1, best_guess := none, score := score }
  else
    { status := "no_match", suggestion := "Sorry, I didn't catch that.",
      canonical := none, best_guess := some (getCommand matched).1, score := score }

/-! ## `POST /api/command` (`api/voice_routes.py`, `process_voice_command`)

The endpoint body runs inside `try:`; any exception — including the
`HTTPException(400)` it raises itself for empty text — lands in the
`except Exception:` clause, which raises `HTTPException(500, "Command
processing failed")`.  The command resolver and the TTS renderer are
parameters, and every call to them is recorded in a call log so that "never
invoked" is expressible. -/

/-- The response model `VoiceCommandResponse`. -/
structure VoiceCommandResponse where
  status : String
  suggestion : String
  speak_back : Option String
  command_back : Option String
  score : Option Nat
  best_guess : Option String
deriving Repr, DecidableEq

/-- External calls the endpoint can make, in order. -/
inductive ExtCall where
  | resolver (text : String)
  | tts (text : String)
deriving Repr, DecidableEq

/-- What the endpoint surfaces: a response body, or an HTTP error status with
its detail string. -/
inductive RouteOutcome where
  | response (r : VoiceCommandResponse)
  | httpError (statusCode : Nat) (detail : String)
deriving Repr, DecidableEq

/-- The `try:` body of `process_voice_command`: lowercase and strip the text,
raise `HTTPException(400, "Text cannot be empty")` on empty, otherwise
resolve the command, render TTS for the suggestion, and build the response
(success shape with `command_back`/`score`, no-match shape with
`best_guess`/`score`).  Exceptions are the `Except.error` branch; the call
log records the resolver and TTS invocations. -/
def endpointBody (resolve : String → VoiceCmdResult) (tts : String → Option String)
    (text : String) : Except (Nat × String) VoiceCommandResponse × List ExtCall :=
  let user_text := pyStrip (pyLower text)
  if user_text = "" then
    (Except.error (400, "Text cannot be empty"), [])
  else
    let result := resolve user_text
    if result.status = "success" then
      let audio := tts result.suggestion
      (Except.ok { status := "success", suggestion := result.suggestion,
                   speak_back := audio, command_back := result.canonical,
                   score := some result.score, best_guess := none },
       [ExtCall.resolver user_text, ExtCall.tts result.suggestion])
    else
      let audio := tts result.suggestion
      (Except.ok { status := "no_match", suggestion := result.suggestion,
                   speak_back := audio, command_back := none,
                   score := some result.score, best_guess := result.best_guess },
       [ExtCall.resolver user_text, ExtCall.tts result.suggestion])

/-- The whole endpoint: the body's exceptions — the 400 included — are caught
by `except Exception:` and surfaced as
`HTTPException(500, "Command processing failed")`. -/
def processVoiceCommandRoute (resolve : String → VoiceCmdResult)
    (tts : String → Option String) (text : String) : RouteOutcome × List ExtCall :=
  match endpointBody resolve tts text with
  | (Except.ok r, log) => (RouteOutcome.response r, log)
  | (Except.error _, log) => (RouteOutcome.httpError 500 "Command processing failed", log)

/-! ## Fixtures and invariant definitions used by the theorems -/

/-- Concrete frame records used by concrete instances. -/
def fr1 : FrameRec := { data := [1], path := "frames/f1.jpg", ts := 1 }

def fr2 : FrameRec := { data := [2], path := "frames/f2.jpg", ts := 2 }

def fr3 : FrameRec := { data := [3], path := "frames/f3.jpg", ts := 3 }

def fr4 : FrameRec := { data := [4], path := "frames/f4.jpg", ts := 4 }

def fr5 : FrameRec := { data := [5], path := "frames/f5.jpg", ts := 5 }

def fr6 : FrameRec := { data := [6], path := "frames/f6.jpg", ts := 6 }

def fr7 : FrameRec := { data := [7], path := "frames/f7.jpg", ts := 7 }

def fr8 : FrameRec := { data := [8], path := "frames/f8.jpg", ts := 8 }

/-- Events that are frame arrivals or batch completions (no lifecycle
reset). -/
def Event.nonLifecycle : Event → Bool
  | Event.frameNew _ => true
  | Event.batchComplete _ => true
  | Event.gameStarted => false
  | Event.gameEnded => false
  | Event.disconnect => false

/-- The dispatch-discipline invariant: at most one batch in flight, and none
at all while the key's processing flag is false. -/
def schedInv (s : KeyState) : Prop :=
  s.inFlight ≤ 1 ∧ (s.processing = false → s.inFlight = 0)

instance (s : KeyState) : Decidable (schedInv s) := by
  unfold schedInv; infer_instance

/-- A session state whose stored message is the empty string, as the baseline
branch produces when the analysis message was empty. -/
def gateEmptyStored : PrevState :=
  { status := some "ok", observation := some "", analysis_result := some "",
    first_message_sent := true }

/-- A session state storing a plain `ok` message. -/
def gateSameStored : PrevState :=
  { status := some "ok", observation := some "all good",
    analysis_result := some "all good", first_message_sent := true }

/-- The per-key session-state invariant: the `observation` and
`analysis_result` fields hold the same value. -/
def prevConsistent (p : PrevState) : Prop := p.observation = p.analysis_result

/-! ## Helper lemmas -/

/-- The `mkRat` in `seqRatio` is exactly difflib's
`2.0 * matches / length`. -/
theorem seqRatio_div_form (a b : String) :
    seqRatio a b =
      if a.data.length + b.data.length = 0 then 1
      else 2 * (matchTotal a.data b.data (a.data.length + b.data.length + 1)
          0 a.data.length 0 b.data.length : ℚ) /
        ((a.data.length + b.data.length : Nat) : ℚ) := by
  simp only [seqRatio]
  split
  · rfl
  · rw [Rat.mkRat_eq_div]
    push_cast
    ring

/-- The extraction loop pops exactly the first `n` records: it is
take/drop. -/
theorem extractBatch_eq (n : Nat) (l : List FrameRec) :
    extractBatch n l = (l.take n, l.drop n) := by
  induction n generalizing l with
  | zero => simp [extractBatch]
  | succ n ih =>
    cases l with
    | nil => simp [extractBatch]
    | cons f buf => simp [extractBatch, ih]

/-! ## C4 — danger always sends and adopts the new state -/

/-- C4: after the baseline, a `danger` result always sends, for every
previous state (a previous `danger` included) and every message, and the
stored state adopts the result's status and message. -/
theorem C4_danger_always_sends (prev : PrevState) (st msg : String)
    (hbase : prev.first_message_sent = true) (hd : st = "danger") :
    shouldSendUpdate prev st msg = (true, adoptState prev st msg) := by
  subst hd
  simp [shouldSendUpdate, hbase]

/-- C4 witness: a repeated `danger` with an unrelated message still sends and
adopts the new message. -/
theorem C4_danger_always_sends_witness :
    shouldSendUpdate
        { status := some "danger", observation := some "fire near the press",
          analysis_result := some "fire near the press", first_message_sent := true }
        "danger" "step away from the conveyor" =
      (true,
        { status := some "danger", observation := some "step away from the conveyor",
          analysis_result := some "step away from the conveyor",
          first_message_sent := true }) := by
  have h := C4_danger_always_sends
    { status := some "danger", observation := some "fire near the press",
      analysis_result := some "fire near the press", first_message_sent := true }
    "danger" "step away from the conveyor" rfl rfl
  simpa [adoptState] using h

/-! ## C5 — append at the tail, drain from the head: FIFO round-trip -/

/-- C5: frames are appended at the tail and a triggered dispatch extracts
exactly `batch_size` records from the head: the dispatched batch is the
arrival-order prefix, the remaining buffer the matching suffix, the batch has
exactly `batch_size` records, and batch plus remainder reassemble the
arrival order. -/
theorem C5_fifo_drain (bs : Nat) (frames : List FrameRec) (s : KeyState)
    (hp : s.processing = false) (hlen : bs ≤ (s.buffer ++ frames).length) :
    (onFrameNew bs frames s).dispatched = some ((s.buffer ++ frames).take bs) ∧
    (onFrameNew bs frames s).state.buffer = (s.buffer ++ frames).drop bs ∧
    ((s.buffer ++ frames).take bs).length = bs ∧
    (s.buffer ++ frames).take bs ++ (s.buffer ++ frames).drop bs =
      s.buffer ++ frames := by
  have hlen' : bs ≤ s.buffer.length + frames.length := by simpa using hlen
  refine ⟨?_, ?_, ?_, List.take_append_drop bs (s.buffer ++ frames)⟩
  · simp [onFrameNew, hp, hlen', extractBatch_eq]
  · simp [onFrameNew, hp, hlen', extractBatch_eq]
  · simpa using Nat.min_eq_left hlen

/-- C5 witness: `[f1, f2, f3, f4]` appended to an empty, non-processing
buffer with batch size 4 dispatches exactly `[f1, f2, f3, f4]` and leaves the
buffer empty. -/
theorem C5_fifo_drain_witness :
    (onFrameNew BATCH_SIZE [fr1, fr2, fr3, fr4] initKeyState).dispatched =
      some [fr1, fr2, fr3, fr4] ∧
    (onFrameNew BATCH_SIZE [fr1, fr2, fr3, fr4] initKeyState).state.buffer = [] := by
  have h := C5_fifo_drain BATCH_SIZE [fr1, fr2, fr3, fr4] initKeyState rfl (by decide)
  exact ⟨by simpa [initKeyState] using h.1, by simpa [initKeyState] using h.2.1⟩

/-! ## C6 — what `disconnect` actually resets -/

/-- C6 counterexample: the `disconnect` handler does not reset the session
state.  From a state whose session state records a sent baseline, after
`disconnect` the session state is unchanged — not the initial value the claim
requires. -/
theorem C6_disconnect_counterexample :
    (step BATCH_SIZE Event.disconnect
        { buffer := [fr1], processing := true,
          prev := { status := some "ok", observation := some "keep going",
                    analysis_result := some "keep going", first_message_sent := true },
          inFlight := 1 }).prev ≠ initPrevState ∧
    (step BATCH_SIZE Event.disconnect
        { buffer := [fr1], processing := true,
          prev := { status := some "ok", observation := some "keep going",
                    analysis_result := some "keep going", first_message_sent := true },
          inFlight := 1 }).prev =
      { status := some "ok", observation := some "keep going",
        analysis_result := some "keep going", first_message_sent := true } := by
  decide

/-- C6 amended: on transport disconnect every known key's buffer is cleared
and its processing flag reset to false, but the Session State
(`previous_states`) is left exactly as it was — it is reset by
`game:started`/`game:ended`, not by `disconnect`. -/
theorem C6_disconnect_amended (bs : Nat) (s : KeyState) :
    (step bs Event.disconnect s).buffer = [] ∧
    (step bs Event.disconnect s).processing = false ∧
    (step bs Event.disconnect s).prev = s.prev := by
  exact ⟨rfl, rfl, rfl⟩

/-! ## C10 — empty command text surfaces a 500, with no resolver or TTS call -/

/-- C10: when the request text is empty after lowercasing and stripping, the
endpoint body raises the 400 "Text cannot be empty" without calling the
command resolver or the speech synthesizer (empty call log), and the
endpoint's own `except Exception` turns it into the 500
"Command processing failed" surfaced to the client. -/
theorem C10_empty_text_500 (resolve : String → VoiceCmdResult)
    (tts : String → Option String) (text : String)
    (h : pyStrip (pyLower text) = "") :
    endpointBody resolve tts text = (Except.error (400, "Text cannot be empty"), []) ∧
    processVoiceCommandRoute resolve tts text =
      (RouteOutcome.httpError 500 "Command processing failed", []) := by
  constructor
  · simp [endpointBody, h]
  · simp [processVoiceCommandRoute, endpointBody, h]

/-- C10 witness: a whitespace-only request, with the deployed resolver and a
TTS stub, yields the 500 and an empty call log. -/
theorem C10_empty_text_500_witness :
    processVoiceCommandRoute (fun t => processCommand FUZZY_THRESHOLD t 0)
        (fun _ => none) "   " =
      (RouteOutcome.httpError 500 "Command processing failed", []) :=
  (C10_empty_text_500 (fun t => processCommand FUZZY_THRESHOLD t 0)
    (fun _ => none) "   " (by decide)).2

/-! ## C1 — per-key mutual exclusion of batch processing -/

/-- Frame arrivals and batch completions preserve the dispatch discipline: a
dispatch happens only with the flag observed false (or just reset by the
completing batch itself) and immediately set true. -/
theorem step_preserves_schedInv (bs : Nat) (e : Event) (s : KeyState)
    (he : e.nonLifecycle = true) (h : schedInv s) : schedInv (step bs e s) := by
  obtain ⟨h1, h2⟩ := h
  cases e with
  | frameNew frames =>
    by_cases hc : bs ≤ (s.buffer ++ frames).length ∧ s.processing = false
    · have h0 : s.inFlight = 0 := h2 hc.2
      simp only [step, onFrameNew]
      rw [if_pos (by simpa using hc)]
      exact ⟨by simp [h0], by simp⟩
    · simp only [step, onFrameNew]
      rw [if_neg (by simpa using hc)]
      exact ⟨h1, h2⟩
  | batchComplete kind =>
    by_cases h0 : s.inFlight = 0
    · simp only [step, if_pos h0]; exact ⟨h1, h2⟩
    · simp only [step, if_neg h0]
      have hfl : s.inFlight - 1 = 0 := by omega
      cases kind with
      | noValidFrames => exact ⟨by simp [completeBatch, hfl], by simp [completeBatch, hfl]⟩
      | errorNoGate => exact ⟨by simp [completeBatch, hfl], by simp [completeBatch, hfl]⟩
      | afterGate st msg errorAfter =>
        cases errorAfter with
        | true => exact ⟨by simp [completeBatch, hfl], by simp [completeBatch, hfl]⟩
        | false =>
          simp only [schedInv, completeBatch, recheckDispatch]
          by_cases hb : bs ≤ s.buffer.length
          · simp [hb, hfl]
          · simp [hb, hfl]
  | gameStarted => simp [Event.nonLifecycle] at he
  | gameEnded => simp [Event.nonLifecycle] at he
  | disconnect => simp [Event.nonLifecycle] at he

/-- Invariant propagation along a run of non-lifecycle events. -/
theorem run_preserves_schedInv (bs : Nat) (events : List Event) (s : KeyState)
    (he : ∀ e ∈ events, e.nonLifecycle = true) (h : schedInv s) :
    schedInv (run bs events s) := by
  induction events generalizing s with
  | nil => exact h
  | cons e es ih =>
    exact ih (step bs e s) (fun x hx => he x (List.mem_cons_of_mem e hx))
      (step_preserves_schedInv bs e s (he e (List.mem_cons_self e es)) h)

/-- C1 counterexample to the claim as stated: the mutual exclusion is not
unconditional.  A batch is dispatched; a `game:started` for the same key then
resets the processing flag while that batch is still running; four more
frames dispatch a second batch — two batches for the key are now processed
concurrently. -/
theorem C1_counterexample :
    ¬ (run BATCH_SIZE
        [Event.frameNew [fr1, fr2, fr3, fr4], Event.gameStarted,
         Event.frameNew [fr5, fr6, fr7, fr8]]
        initKeyState).inFlight ≤ 1 := by
  decide

/-- C1 amended: along every event sequence of frame arrivals and batch
completions (no lifecycle reset interleaved), at most one batch per key is in
flight at any instant, and none while the key's processing flag is false —
the dispatch sites (the threshold check of `on_frame_new` and the completion
re-check of `_process_batch_sync`) only dispatch under the key's lock with
the flag observed false and set true.  A lifecycle reset (`game:started`,
`game:ended`, `disconnect`) while a batch is in flight breaks this by
clearing the flag. -/
theorem C1_mutual_exclusion_amended (bs : Nat) (events : List Event)
    (he : ∀ e ∈ events, e.nonLifecycle = true) :
    schedInv (run bs events initKeyState) :=
  run_preserves_schedInv bs events initKeyState he (by decide)

/-- C1 witness: a dispatch followed by its completion and a re-dispatch keeps
the invariant. -/
theorem C1_mutual_exclusion_amended_witness :
    schedInv (run BATCH_SIZE
      [Event.frameNew [fr1, fr2, fr3, fr4, fr5, fr6, fr7, fr8],
       Event.batchComplete (CompletionKind.afterGate "ok" "all good" false)]
      initKeyState) :=
  C1_mutual_exclusion_amended BATCH_SIZE
    [Event.frameNew [fr1, fr2, fr3, fr4, fr5, fr6, fr7, fr8],
     Event.batchComplete (CompletionKind.afterGate "ok" "all good" false)]
    (by decide)

/-! ## C2 — what batch completion re-checks -/

/-- C2 counterexample to the claim as stated: a batch that ends in an error
does not re-check the buffer.  With four frames buffered (one full batch) and
the key processing, the error path resets the flag and dispatches nothing —
the claim requires an immediate dispatch of those four frames. -/
theorem C2_error_no_recheck_counterexample :
    4 ≤ ({ buffer := [fr1, fr2, fr3, fr4], processing := true,
           prev := initPrevState, inFlight := 1 } : KeyState).buffer.length ∧
    (completeBatch 4 CompletionKind.errorNoGate
        { buffer := [fr1, fr2, fr3, fr4], processing := true,
          prev := initPrevState, inFlight := 1 }).dispatched = none ∧
    (completeBatch 4 CompletionKind.errorNoGate
        { buffer := [fr1, fr2, fr3, fr4], processing := true,
          prev := initPrevState, inFlight := 1 }).state.processing = false := by
  decide

/-- C2 amended: when a batch completes through the sent or the suppressed
path, the completion code re-checks the key's buffer: with at least
`batch_size` frames buffered it immediately extracts the next `batch_size`
frames and dispatches them with the processing flag true, and otherwise it
resets the flag; but when batch processing ends in an error — or the batch
carried no valid frame data — the flag is simply reset to false and no
re-check happens, whatever the buffer holds. -/
theorem C2_completion_recheck_amended (bs : Nat) (s : KeyState) (st msg : String) :
    (bs ≤ s.buffer.length →
      (completeBatch bs (CompletionKind.afterGate st msg false) s).dispatched =
          some (s.buffer.take bs) ∧
      (completeBatch bs (CompletionKind.afterGate st msg false) s).state.buffer =
          s.buffer.drop bs ∧
      (completeBatch bs (CompletionKind.afterGate st msg false) s).state.processing = true) ∧
    (s.buffer.length < bs →
      (completeBatch bs (CompletionKind.afterGate st msg false) s).dispatched = none ∧
      (completeBatch bs (CompletionKind.afterGate st msg false) s).state.processing = false) ∧
    ((completeBatch bs CompletionKind.errorNoGate s).dispatched = none ∧
      (completeBatch bs CompletionKind.errorNoGate s).state.processing = false ∧
      (completeBatch bs CompletionKind.errorNoGate s).state.buffer = s.buffer) ∧
    ((completeBatch bs (CompletionKind.afterGate st msg true) s).dispatched = none ∧
      (completeBatch bs (CompletionKind.afterGate st msg true) s).state.processing = false ∧
      (completeBatch bs (CompletionKind.afterGate st msg true) s).state.buffer = s.buffer) ∧
    ((completeBatch bs CompletionKind.noValidFrames s).dispatched = none ∧
      (completeBatch bs CompletionKind.noValidFrames s).state.processing = false ∧
      (completeBatch bs CompletionKind.noValidFrames s).state.buffer = s.buffer) := by
  refine ⟨fun hb => ?_, fun hb => ?_, ⟨rfl, rfl, rfl⟩, ⟨rfl, rfl, rfl⟩, ⟨rfl, rfl, rfl⟩⟩
  · simp [completeBatch, recheckDispatch, hb, extractBatch_eq]
  · have hnb : ¬ bs ≤ s.buffer.length := by omega
    simp [completeBatch, recheckDispatch, hnb]

/-- C2 witness: a suppressed completion with a full next batch buffered
dispatches it at once, keeping the flag true. -/
theorem C2_completion_recheck_amended_witness :
    (completeBatch 4 (CompletionKind.afterGate "ok" "all good" false)
        { buffer := [fr1, fr2, fr3, fr4], processing := true,
          prev := initPrevState, inFlight := 1 }).dispatched =
      some [fr1, fr2, fr3, fr4] ∧
    (completeBatch 4 (CompletionKind.afterGate "ok" "all good" false)
        { buffer := [fr1, fr2, fr3, fr4], processing := true,
          prev := initPrevState, inFlight := 1 }).state.processing = true := by
  have h := (C2_completion_recheck_amended 4
    { buffer := [fr1, fr2, fr3, fr4], processing := true,
      prev := initPrevState, inFlight := 1 } "ok" "all good").1 (by decide)
  exact ⟨by simpa using h.1, h.2.2⟩

/-! ## C3 — the similarity branch of the change gate -/

/-- C3 counterexample to the claim as stated: with an empty stored message
the similarity ratio to any non-empty message is `0 < 0.7`, so the claim
demands a send — but the gate's truthiness guard
(`if previous_state["analysis_result"]:`) skips the similarity check for an
empty string and suppresses, leaving the state unchanged. -/
theorem C3_empty_stored_counterexample :
    seqRatio (pyLower "") (pyLower "please tighten the clamp") < 7 / 10 ∧
    shouldSendUpdate gateEmptyStored "ok" "please tighten the clamp" =
      (false, gateEmptyStored) := by
  constructor
  · have h1 : seqRatio (pyLower "") (pyLower "please tighten the clamp") = 0 := rfl
    rw [h1]
    norm_num
  · decide

/-- C3 amended: after the baseline, for a result that is not `danger`, not an
escalation into `needs_adjustment`, and not a recovery to `ok`, *provided the
stored message is a non-empty string*, the decision is send iff the
case-insensitive sequence-similarity ratio of the stored and current messages
is below `0.7`; on send the state adopts the result's status and message, on
suppress it is unchanged.  When the stored message is `None` or empty, the
similarity check is skipped: the decision is suppress and the state is
unchanged, whatever the current message. -/
theorem C3_similarity_gate_amended (prev : PrevState) (st msg : String)
    (hbase : prev.first_message_sent = true)
    (hd : st ≠ "danger")
    (hna : ¬(st = "needs_adjustment" ∧ prev.status ≠ some "needs_adjustment"))
    (hrec : ¬(st = "ok" ∧ prev.status = some "needs_adjustment")) :
    (∀ m, prev.analysis_result = some m → m ≠ "" →
      ((shouldSendUpdate prev st msg).1 = true ↔
        seqRatio (pyLower m) (pyLower msg) < 7 / 10) ∧
      (seqRatio (pyLower m) (pyLower msg) < 7 / 10 →
        (shouldSendUpdate prev st msg).2 = adoptState prev st msg) ∧
      (¬ seqRatio (pyLower m) (pyLower msg) < 7 / 10 →
        (shouldSendUpdate prev st msg).2 = prev)) ∧
    ((prev.analysis_result = none ∨ prev.analysis_result = some "") →
      shouldSendUpdate prev st msg = (false, prev)) := by
  constructor
  · intro m hm hne
    by_cases hr : seqRatio (pyLower m) (pyLower msg) < 7 / 10
    · simp [shouldSendUpdate, truthy, hbase, hd, hna, hrec, hm, hne, hr]
    · simp [shouldSendUpdate, truthy, hbase, hd, hna, hrec, hm, hne, hr]
  · intro hm
    have ht : truthy prev.analysis_result = false := by
      rcases hm with h | h <;> simp [truthy, h]
    simp [shouldSendUpdate, hbase, hd, hna, hrec, ht]

/-- C3 witness: an `ok` result repeating the stored message verbatim has
ratio `1 ≥ 0.7` and is suppressed with the state unchanged. -/
theorem C3_similarity_gate_amended_witness :
    (shouldSendUpdate gateSameStored "ok" "all good").1 = false ∧
    (shouldSendUpdate gateSameStored "ok" "all good").2 = gateSameStored := by
  have h := (C3_similarity_gate_amended gateSameStored "ok" "all good" rfl
      (by decide) (by decide) (by decide)).1 "all good" rfl (by decide)
  have hr : ¬ seqRatio (pyLower "all good") (pyLower "all good") < 7 / 10 := by
    have h1 : seqRatio (pyLower "all good") (pyLower "all good") = 1 := rfl
    rw [h1]
    norm_num
  refine ⟨?_, h.2.2 hr⟩
  cases hB : (shouldSendUpdate gateSameStored "ok" "all good").1 with
  | false => rfl
  | true => exact absurd (h.1.mp hB) hr

/-! ## C7 — batch aggregation of the vision adapter -/

/-- C7 counterexample to the claim as stated: a batch whose sources all fail
to load has zero successful per-frame sub-analyses, yet
`analyze_frame_batch_detailed` returns the earlier no-valid-images result
with status `"error"` — not the claimed `ok`/default-monitoring-message
result. -/
theorem C7_no_valid_images_counterexample :
    keptResults [] = [] ∧
    (analyzeFrameBatchDetailed [none] [] none).status = "error" ∧
    ¬ (analyzeFrameBatchDetailed [none] [] none).status = "ok" := by
  refine ⟨rfl, rfl, by decide⟩

/-- C7 amended: when no source loads, the result is
`{status: error, message: "No valid images found to analyze.",
has_changes: false}`; when at least one image loads but zero sub-analyses
succeed, the result is `{status: ok, message: <default monitoring message>,
has_changes: false}`; otherwise the overall status is `danger` if any
successful sub-result reported `danger`, else `needs_adjustment` if any
reported `needs_adjustment`, else `ok`. -/
theorem C7_aggregation_amended (loaded : List (Option (List Nat)))
    (outcomes : List SubOutcome) (summary : Option String) :
    (loaded.filterMap id = [] →
      analyzeFrameBatchDetailed loaded outcomes summary =
        { status := "error", message := "No valid images found to analyze.",
          has_changes := false, danger_count := none, adjustment_count := none,
          ok_count := none }) ∧
    (loaded.filterMap id ≠ [] → keptResults outcomes = [] →
      analyzeFrameBatchDetailed loaded outcomes summary =
        { status := "ok", message := defaultMonitoringMessage,
          has_changes := false, danger_count := none, adjustment_count := none,
          ok_count := none }) ∧
    (loaded.filterMap id ≠ [] → keptResults outcomes ≠ [] →
      (analyzeFrameBatchDetailed loaded outcomes summary).status =
        (if 0 < ((keptResults outcomes).map Prod.fst).count (some "danger")
         then "danger"
         else if 0 < ((keptResults outcomes).map Prod.fst).count (some "needs_adjustment")
         then "needs_adjustment" else "ok") ∧
      (analyzeFrameBatchDetailed loaded outcomes summary).has_changes = true) := by
  refine ⟨fun h1 => ?_, fun h1 h2 => ?_, fun h1 h2 => ?_⟩
  · simp [analyzeFrameBatchDetailed, h1]
  · simp [analyzeFrameBatchDetailed, h1, h2]
  · constructor <;> simp [analyzeFrameBatchDetailed, h1, h2]

/-- C7 witness: one loaded image whose sub-analysis reports `danger` yields
overall status `danger` with `has_changes` true. -/
theorem C7_aggregation_amended_witness :
    (analyzeFrameBatchDetailed [some [0]]
        [SubOutcome.result (some "danger") (some "hand too close to the blade")]
        (some "Move your hand away from the blade.")).status = "danger" ∧
    (analyzeFrameBatchDetailed [some [0]]
        [SubOutcome.result (some "danger") (some "hand too close to the blade")]
        (some "Move your hand away from the blade.")).has_changes = true := by
  have h := (C7_aggregation_amended [some [0]]
    [SubOutcome.result (some "danger") (some "hand too close to the blade")]
    (some "Move your hand away from the blade.")).2.2 (by decide) (by decide)
  exact ⟨h.1.trans (by decide), h.2⟩

/-! ## C8 — fuzzy command dispatch -/

/-- In a table with pairwise-distinct keys, `find?` on a key equality test
retrieves exactly the entry holding that key. -/
theorem find_entry_of_nodup_keys (l : List (String × String × String))
    (hnd : (l.map Prod.fst).Nodup) (p : String) (ca : String × String)
    (h : (p, ca) ∈ l) : l.find? (fun e => e.1 == p) = some (p, ca) := by
  induction l with
  | nil => cases h
  | cons e l ih =>
    rw [List.map_cons] at hnd
    rcases List.nodup_cons.mp hnd with ⟨hne, hnd'⟩
    rcases List.mem_cons.mp h with he | hm
    · subst he
      simp [List.find?]
    · have hkey : ¬ (e.1 == p) = true := by
        simp only [beq_iff_eq]
        intro hcontra
        exact hne (hcontra ▸ List.mem_map.mpr ⟨(p, ca), hm, rfl⟩)
      have hkey' : ¬ ((fun (x : String × String × String) => x.1 == p) e) = true := hkey
      have hfind : List.find? (fun x => x.1 == p) (e :: l) =
          List.find? (fun x => x.1 == p) l := List.find?_cons_of_neg l hkey'
      rw [hfind]
      exact ih hnd' hm

/-- Looking up a registered phrase returns its canonical name and its
handler's acknowledgment. -/
theorem getCommand_of_mem (p c a : String) (h : (p, c, a) ∈ commandTable) :
    getCommand p = (c, a) := by
  have hnd : (commandTable.map Prod.fst).Nodup := by decide
  have hf := find_entry_of_nodup_keys commandTable hnd p (c, a) h
  simp [getCommand, hf]

/-- C8: for any registered phrase that the fuzzy matcher selects, a score at
or above the threshold yields `status = success` with the handler's fixed
acknowledgment, the canonical name and the score; a score below it yields
`status = no_match` with the fixed "Sorry, I didn't catch that." message,
the top-scoring phrase's canonical name as best guess, and the score. -/
theorem C8_fuzzy_dispatch (threshold : Nat) (p c a : String) (score : Nat)
    (hmem : (p, c, a) ∈ commandTable) :
    (threshold ≤ score →
      processCommand threshold p score =
        { status := "success", suggestion := a, canonical := some c,
          best_guess := none, score := score }) ∧
    (score < threshold →
      processCommand threshold p score =
        { status := "no_match", suggestion := "Sorry, I didn't catch that.",
          canonical := none, best_guess := some c, score := score }) := by
  have hg := getCommand_of_mem p c a hmem
  constructor
  · intro h
    simp [processCommand, hg, h]
  · intro h
    simp [processCommand, hg, Nat.not_le.mpr h]

/-- C8 witness: the exact phrase "move forward" at score 100 succeeds with
its acknowledgment and canonical name; at score 40 (below the default
threshold 75) it reports `no_match` with the best-guess canonical. -/
theorem C8_fuzzy_dispatch_witness :
    processCommand FUZZY_THRESHOLD "move forward" 100 =
      { status := "success", suggestion := "Okay, moving forward.",
        canonical := some "move_forward", best_guess := none, score := 100 } ∧
    processCommand FUZZY_THRESHOLD "move forward" 40 =
      { status := "no_match", suggestion := "Sorry, I didn't catch that.",
        canonical := none, best_guess := some "move_forward", score := 40 } :=
  ⟨(C8_fuzzy_dispatch FUZZY_THRESHOLD "move forward" "move_forward"
      "Okay, moving forward." 100 (by decide)).1 (by decide),
   (C8_fuzzy_dispatch FUZZY_THRESHOLD "move forward" "move_forward"
      "Okay, moving forward." 40 (by decide)).2 (by decide)⟩

/-! ## C9 — `observation` and `analysis_result` always agree -/

/-- Every change-gate evaluation writes the current message to both fields
(or leaves both untouched). -/
theorem shouldSendUpdate_preserves_consistent (prev : PrevState) (st msg : String)
    (h : prevConsistent prev) : prevConsistent (shouldSendUpdate prev st msg).2 := by
  unfold prevConsistent at h ⊢
  unfold shouldSendUpdate
  repeat' split
  all_goals simp_all [adoptState]

/-- Every per-key event preserves the invariant. -/
theorem step_preserves_consistent (bs : Nat) (e : Event) (s : KeyState)
    (h : prevConsistent s.prev) : prevConsistent (step bs e s).prev := by
  cases e with
  | frameNew frames =>
    simp only [step, onFrameNew]
    split <;> exact h
  | batchComplete kind =>
    by_cases h0 : s.inFlight = 0
    · simpa [step, h0] using h
    · simp only [step, if_neg h0]
      cases kind with
      | noValidFrames => exact h
      | errorNoGate => exact h
      | afterGate st msg errorAfter =>
        have hg := shouldSendUpdate_preserves_consistent s.prev st msg h
        cases errorAfter with
        | true => exact hg
        | false =>
          by_cases hb : bs ≤ s.buffer.length
          · simpa [completeBatch, recheckDispatch, hb] using hg
          · simpa [completeBatch, recheckDispatch, hb] using hg
  | gameStarted => simp [step, lifecycleReset, prevConsistent, initPrevState]
  | gameEnded => simp [step, lifecycleReset, prevConsistent, initPrevState]
  | disconnect => exact h

/-- The invariant along any run. -/
theorem run_preserves_consistent (bs : Nat) (events : List Event) (s : KeyState)
    (h : prevConsistent s.prev) : prevConsistent (run bs events s).prev := by
  induction events generalizing s with
  | nil => exact h
  | cons e es ih => exact ih (step bs e s) (step_preserves_consistent bs e s h)

/-- C9: in the initial (and lifecycle-reset) session state both fields are
`None`, and in every state reachable by any event sequence the stored
`observation` equals the stored `analysis_result` — the change gate always
compares against the last adopted message. -/
theorem C9_observation_matches_analysis :
    initPrevState.observation = none ∧ initPrevState.analysis_result = none ∧
    ∀ (bs : Nat) (events : List Event),
      (run bs events initKeyState).prev.observation =
        (run bs events initKeyState).prev.analysis_result :=
  ⟨rfl, rfl, fun bs events => run_preserves_consistent bs events initKeyState rfl⟩

end Myassist
